import Mathlib

/-!
Shallow embedding of the HomeyPrayersWeb server (DPANET/HomeyPrayersWeb).

The repository is a small Express application. The parts embedded here are
the first-party modules:
  - the process entry point (settings/app: nconf.file at module scope, an
    async init that constructs the App, starts the listener and registers a
    SIGINT handler, all inside a try/catch);
  - the application-composition class App (settings/routes/main.router.js:
    constructor order initializeDatabase, initializeMiddlewares,
    initializeAuthenticators, initializeControllers,
    initializeErrorMiddleware; the static middleware is mounted at
    MAIN_FILE_URL over path.join(WEBROOT, STATIC_FILES) and express.static
    is called with the folder argument only);
  - MainController (main.controller: one GET route at MAIN_FILE_URL whose
    handler sends the file path.join(dirname, MAIN_FILE_PATH, MAIN_FILE_NAME));
  - the HTTP-exception classes (exception.handler: HttpException extends
    Error, calling only super(message), so the status argument is dropped).

URL paths and file paths are modelled as lists of segments, so that the
mount-point handling of express (a mounted middleware sees the request path
with the mount prefix stripped) is list prefix stripping, and path.join is
list append.  The file system is an association list from paths to file
contents.  Express dispatch is modelled as a walk down the middleware
chain: static middleware answers GET and HEAD requests for existing files
(falling back to the directory index file, index.html, since the default
options are in force) and otherwise falls through; a route answers on an
exact method and path match; a thrown error skips forward to the first
error middleware; a request that falls off the end of the chain gets the
framework 404.
-/

namespace HomeyPrayersWeb

/-- Configuration values read through nconf from config/default.json.
Directory-valued entries are segment lists, MAIN_FILE_NAME is one segment. -/
structure Config where
  WEBROOT : List String
  STATIC_FILES : List String
  PORT : Nat
  MAIN_FILE_URL : List String
  MAIN_FILE_PATH : List String
  MAIN_FILE_NAME : String
  deriving DecidableEq

/-- A JavaScript Error object as the first-party code can observe it: the
message set by super(message), and the status property, if any code ever
set one (the Option is none when no status property exists on the error). -/
structure ErrObj where
  message : String
  status : Option Nat
  deriving DecidableEq

/-- HttpException from exception.handler: the constructor receives (status,
message) but its body is only super(message); no status property is set. -/
def HttpException (status : Nat) (message : String) : ErrObj :=
  { message := message, status := none }

/-- Subclass of HttpException; passes 404 and a templated message. -/
def UserWithThatEmailAlreadyExistsException (email : String) : ErrObj :=
  HttpException 404 ("user with email " ++ email ++ " not found")

/-- Subclass of HttpException; passes 404 and a fixed message. -/
def WrongCredentialsException : ErrObj :=
  HttpException 404 "Wrong Password provided"

/-- Subclass of HttpException; passes 404 and a templated message. -/
def PostNotFoundException (id : String) : ErrObj :=
  HttpException 404 ("Post with id " ++ id ++ " not found")

/-- Subclass of HttpException; passes 404 and a fixed message. -/
def AuthenticationTokenMissingException : ErrObj :=
  HttpException 404 "Authentication Token Missing"

/-- Subclass of HttpException; passes 404 and the same fixed message as
AuthenticationTokenMissingException (the source repeats the string). -/
def WrongAuthenticationTokenException : ErrObj :=
  HttpException 404 "Authentication Token Missing"

/-- The shape of the serve-static options object.  setHeaders is a function
in the source; here it is recorded as whether it sets the x-timestamp
header, which is all the built object does. -/
structure StaticOptions where
  dotfiles : String
  etag : Bool
  extensions : List String
  index : Bool
  maxAge : String
  redirect : Bool
  setsTimestampHeader : Bool
  deriving DecidableEq

/-- The documented serve-static defaults, in force when express.static is
called with only a folder argument: no dotfile restriction, etags on, no
extension rewriting, directory index "index.html" on, maxAge 0, trailing
slash redirect on, no custom header hook. -/
def expressStaticDefaults : StaticOptions :=
  { dotfiles := "allow"
  , etag := true
  , extensions := []
  , index := true
  , maxAge := "0"
  , redirect := true
  , setsTimestampHeader := false }

/-- The options object literal built (and never used) in
App.initializeMiddlewares: dotfiles "ignore", etag false, extensions
["js", "json"], index false, maxAge "1d", redirect false, and a setHeaders
hook writing an x-timestamp header. -/
def middlewareOptions : StaticOptions :=
  { dotfiles := "ignore"
  , etag := false
  , extensions := ["js", "json"]
  , index := false
  , maxAge := "1d"
  , redirect := false
  , setsTimestampHeader := true }

/-- A route handler body.  The only handler the repository defines is
MainController.mainPageRoute, which sends one file; throwErr stands for any
handler that throws the given error uncaught. -/
inductive Handler where
  | sendFile (file : List String)
  | throwErr (e : ErrObj)
  deriving DecidableEq

/-- One route of an express Router: HTTP method, path, handler. -/
structure Route where
  method : String
  path : List String
  handler : Handler
  deriving DecidableEq

/-- IController: an object owning a router, i.e. a list of routes. -/
structure Controller where
  routes : List Route
  deriving DecidableEq

/-- One layer of the express middleware chain, as this application builds
it: a mounted static file server (recording the options it was created
with), a route from a mounted controller router, or the error middleware. -/
inductive Middleware where
  | staticServe (mount : List String) (folder : List String) (opts : StaticOptions)
  | route (r : Route)
  | errorWare
  deriving DecidableEq

/-- MainController (main.controller): path is MAIN_FILE_URL; the file sent
is path.join(dirname, MAIN_FILE_PATH, MAIN_FILE_NAME) where dirname is the
directory of the compiled controller module; initializeRoutes registers one
GET route at that path. -/
def MainController (dirname : List String) (cfg : Config) : Controller :=
  { routes :=
      [ { method := "GET"
        , path := cfg.MAIN_FILE_URL
        , handler := Handler.sendFile (dirname ++ cfg.MAIN_FILE_PATH ++ [cfg.MAIN_FILE_NAME]) } ] }

/-- app.use: express appends the given layer to the middleware chain. -/
def expressUse (app : List Middleware) (m : Middleware) : List Middleware :=
  app ++ [m]

namespace App

/-- App.initializeDatabase: the method body is empty, a no-op on the app. -/
def initializeDatabase (app : List Middleware) : List Middleware :=
  app

/-- App.initializeMiddlewares with the locally built options object
abstracted as a parameter, to state how (whether) its fields influence the
result.  The body mirrors the source: the options object is built and never
used; folderPath is path.join(WEBROOT, STATIC_FILES); express.static is
called with the folder argument only, so the mounted middleware carries the
serve-static defaults. -/
def initializeMiddlewaresWith (options : StaticOptions) (cfg : Config)
    (app : List Middleware) : List Middleware :=
  let folderPath : List String := cfg.WEBROOT ++ cfg.STATIC_FILES
  expressUse app (Middleware.staticServe cfg.MAIN_FILE_URL folderPath expressStaticDefaults)

/-- App.initializeMiddlewares (settings/routes/main.router.js lines 49-71):
builds the options literal, joins the folder path, and mounts
express.static(folderPath) at MAIN_FILE_URL.  (The second static mount over
build/web_modules is commented out in the module that runs.) -/
def initializeMiddlewares (cfg : Config) (app : List Middleware) : List Middleware :=
  initializeMiddlewaresWith middlewareOptions cfg app

/-- App.initializeAuthenticators: the method body is empty, a no-op. -/
def initializeAuthenticators (app : List Middleware) : List Middleware :=
  app

/-- App.initializeControllers: for each controller in order, app.use(sl,
controller.router) with sl the root path, which splices the router routes
into the chain. -/
def initializeControllers (controllers : List Controller) (app : List Middleware) : List Middleware :=
  controllers.foldl (fun a c => a ++ c.routes.map Middleware.route) app

/-- App.initializeErrorMiddleware: constructs the ExceptionMiddleware and
appends its errorMiddleware to the chain. -/
def initializeErrorMiddleware (app : List Middleware) : List Middleware :=
  expressUse app Middleware.errorWare

/-- The App constructor: starting from a fresh express() application, run
initializeDatabase, initializeMiddlewares, initializeAuthenticators,
initializeControllers, initializeErrorMiddleware, in that order. -/
def construct (cfg : Config) (controllers : List Controller) : List Middleware :=
  initializeErrorMiddleware
    (initializeControllers controllers
      (initializeAuthenticators
        (initializeMiddlewares cfg
          (initializeDatabase []))))

end App

/-- The flattened routes of a controller list, in order; helper describing
what initializeControllers appends. -/
def routesFlat (controllers : List Controller) : List Middleware :=
  (controllers.map (fun c => c.routes.map Middleware.route)).flatten

theorem initializeControllers_eq (controllers : List Controller) (app : List Middleware) :
    App.initializeControllers controllers app = app ++ routesFlat controllers := by
  induction controllers generalizing app with
  | nil => simp [App.initializeControllers, routesFlat]
  | cons c cs ih =>
    simp only [App.initializeControllers, List.foldl_cons] at *
    rw [ih (app ++ c.routes.map Middleware.route)]
    simp [routesFlat, List.append_assoc]

theorem routesFlat_all_routes (controllers : List Controller) :
    ∀ m ∈ routesFlat controllers, ∃ r, m = Middleware.route r := by
  intro m hm
  simp only [routesFlat, List.mem_flatten, List.mem_map] at hm
  obtain ⟨l, ⟨c, _, rfl⟩, hml⟩ := hm
  obtain ⟨r, _, rfl⟩ := List.mem_map.mp hml
  exact ⟨r, rfl⟩

/-- The App chain, described end to end: the static layer, then the
controller routes in order, then the error middleware. -/
theorem App_construct_eq (cfg : Config) (controllers : List Controller) :
    App.construct cfg controllers =
      Middleware.staticServe cfg.MAIN_FILE_URL (cfg.WEBROOT ++ cfg.STATIC_FILES) expressStaticDefaults
        :: (routesFlat controllers ++ [Middleware.errorWare]) := by
  simp [App.construct, App.initializeErrorMiddleware, App.initializeAuthenticators,
    App.initializeDatabase, App.initializeMiddlewares, App.initializeMiddlewaresWith,
    expressUse, initializeControllers_eq]

/-- A file system: an association list from file paths to file contents.
Paths absent from the list are missing files; directories are not files. -/
abbrev FS := List (List String × String)

/-- Reading a file: association-list lookup. -/
def lookupFile (fs : FS) (p : List String) : Option String :=
  match fs with
  | [] => none
  | (q, c) :: rest => if p = q then some c else lookupFile rest p

/-- An HTTP response, as far as the first-party code distinguishes them:
a 200 with a body, the framework final 404, a response produced by the
application error middleware, or the express fallback error handler
(status 500) that runs only when an error reaches the end of the chain. -/
inductive Response where
  | ok (body : String)
  | notFound
  | handledError (status : Nat) (message : String)
  | expressDefaultError (message : String)
  deriving DecidableEq

/-- Modelled from the spec: the module src/middlewares/exceptions.middleware
is imported by the router but is not present in the repository snapshot.
Per the spec it is a catch-all error middleware that translates uncaught
exceptions into HTTP responses; following express error-middleware
convention it responds from the error object, with the error status when
the object carries one and the internal-server-error status 500 otherwise,
and the error message. -/
def ExceptionMiddleware.errorMiddleware (e : ErrObj) : Response :=
  Response.handledError (e.status.getD 500) e.message

/-- What a mounted serve-static layer finds for a mount-relative request
path: the file itself if present, otherwise, because the index option is a
directory index file name by default, the index.html below it. -/
def staticHit (fs : FS) (folder : List String) (opts : StaticOptions)
    (rel : List String) : Option String :=
  match lookupFile fs (folder ++ rel) with
  | some c => some c
  | none => if opts.index then lookupFile fs (folder ++ rel ++ ["index.html"]) else none

/-- Running a route handler body: sending an existing file yields a 200
with its content; sending a missing file makes express pass an ENOENT
error (which the send library marks with status 404) to the error chain;
a throwing handler passes its exception to the error chain. -/
def runHandler (fs : FS) : Handler → Except ErrObj Response
  | Handler.sendFile f =>
    match lookupFile fs f with
    | some c => Except.ok (Response.ok c)
    | none => Except.error { message := "ENOENT", status := some 404 }
  | Handler.throwErr e => Except.error e

/-- Error dispatch: after next(err), express skips ordinary layers and
hands the error to the first error middleware; an error that falls off the
end of the chain is answered by the express default error handler. -/
def dispatchErr (e : ErrObj) : List Middleware → Response
  | [] => Response.expressDefaultError e.message
  | Middleware.errorWare :: _ => ExceptionMiddleware.errorMiddleware e
  | Middleware.staticServe _ _ _ :: rest => dispatchErr e rest
  | Middleware.route _ :: rest => dispatchErr e rest

/-- Request dispatch down the middleware chain.  A mounted static layer
answers GET and HEAD requests whose path extends its mount point and that
hit a file (directly or through the directory index), and otherwise calls
next; a route answers on an exact method and path match, its thrown errors
going to the error chain; an error middleware is skipped while there is no
error; the end of the chain is the framework 404. -/
def dispatch (fs : FS) (method : String) (path : List String) :
    List Middleware → Response
  | [] => Response.notFound
  | Middleware.staticServe mount folder opts :: rest =>
    if (method = "GET" ∨ method = "HEAD") ∧ mount.isPrefixOf path then
      match staticHit fs folder opts (path.drop mount.length) with
      | some c => Response.ok c
      | none => dispatch fs method path rest
    else dispatch fs method path rest
  | Middleware.route r :: rest =>
    if method = r.method ∧ path = r.path then
      match runHandler fs r.handler with
      | Except.ok resp => resp
      | Except.error e => dispatchErr e rest
    else dispatch fs method path rest
  | Middleware.errorWare :: rest => dispatch fs method path rest

/-- The observable state of the listening http.Server: whether the listener
accepts new connections, the number of in-flight connections, and the exit
code if process.exit has been called. -/
structure ServerState where
  accepting : Bool
  inflight : Nat
  exitCode : Option Nat
  deriving DecidableEq

/-- The server as app.listen leaves it: accepting, with some number of
in-flight connections and the process still running. -/
def initialServer (n : Nat) : ServerState :=
  { accepting := true, inflight := n, exitCode := none }

/-- The callback passed to server.close in the SIGINT handler: it logs and
calls process.exit(0). -/
def closeCallback (s : ServerState) : ServerState :=
  { s with exitCode := some 0 }

/-- Node server.close(callback): the listener stops accepting new
connections; the callback fires once every already-established connection
has ended, hence at once when none is in flight. -/
def serverClose (s : ServerState) : ServerState :=
  let s1 := { s with accepting := false }
  if s1.inflight = 0 then closeCallback s1 else s1

/-- The SIGINT handler registered by init: server.close with the
log-and-exit(0) callback. -/
def sigintHandler (s : ServerState) : ServerState :=
  serverClose s

/-- One in-flight connection finishing; if the listener is closed and this
was the last connection, the close callback fires. -/
def finishConnection (s : ServerState) : ServerState :=
  let s1 := { s with inflight := s.inflight - 1 }
  if s1.accepting = false ∧ s1.inflight = 0 then closeCallback s1 else s1

/-- A new connection arriving: accepted only while the listener accepts. -/
def acceptConnection (s : ServerState) : ServerState :=
  if s.accepting then { s with inflight := s.inflight + 1 } else s

/-- The observable outcome of loading the entry module: a normal start
with the SIGINT handler that init registered, an error caught and logged
by the try/catch inside init, or an unhandled exception escaping module
evaluation. -/
inductive BootOutcome where
  | ok (registeredSigintHandler : ServerState → ServerState)
  | loggedError (e : ErrObj)
  | crashed (e : ErrObj)

/-- The environment the bootstrap runs against: whether each step of it
succeeds or throws. -/
structure BootEnv where
  configLoad : Except ErrObj Unit
  appConstruct : Except ErrObj Unit
  listenStart : Except ErrObj Unit

/-- The body of init: a try block running new App, app.listen and the
process.on SIGINT registration, with a catch that logs the error and
returns normally. -/
def initTry (env : BootEnv) : BootOutcome :=
  match env.appConstruct with
  | Except.error e => BootOutcome.loggedError e
  | Except.ok _ =>
    match env.listenStart with
    | Except.error e => BootOutcome.loggedError e
    | Except.ok _ => BootOutcome.ok sigintHandler

/-- Evaluating the entry module: nconf.file runs at module scope, before
init is invoked and outside the try/catch inside init; an error it throws
escapes unhandled.  Then init runs. -/
def moduleBoot (env : BootEnv) : BootOutcome :=
  match env.configLoad with
  | Except.error e => BootOutcome.crashed e
  | Except.ok _ => initTry env

theorem routesFlat_cons (c : Controller) (cs : List Controller) :
    routesFlat (c :: cs) = c.routes.map Middleware.route ++ routesFlat cs := by
  simp [routesFlat]

/-- An error raised before the error middleware, with only route layers in
between, is answered by the error middleware. -/
theorem dispatchErr_routes (e : ErrObj) (rs : List Middleware)
    (h : ∀ m ∈ rs, ∃ r, m = Middleware.route r) :
    dispatchErr e (rs ++ [Middleware.errorWare]) = ExceptionMiddleware.errorMiddleware e := by
  induction rs with
  | nil => rfl
  | cons x xs ih =>
    obtain ⟨r, rfl⟩ := h x (List.mem_cons_self x xs)
    simp only [List.cons_append, dispatchErr]
    exact ih (fun m hm => h m (List.mem_cons_of_mem _ hm))

/-- A handler that returns normally returns a 200 with a body. -/
theorem runHandler_ok_shape (fs : FS) (h : Handler) (resp : Response)
    (hr : runHandler fs h = Except.ok resp) : ∃ b, resp = Response.ok b := by
  cases h with
  | sendFile f =>
    cases hl : lookupFile fs f with
    | some c =>
      refine ⟨c, ?_⟩
      rw [runHandler, hl] at hr
      exact (Except.ok.injEq _ _ ▸ hr).symm
    | none => rw [runHandler, hl] at hr; cases hr
  | throwErr e => cases hr

/-- On a chain of route layers closed by the error middleware, dispatch
never falls through to the express default error handler. -/
theorem dispatch_routes_no_default (fs : FS) (method : String) (path : List String)
    (rs : List Middleware) (h : ∀ m ∈ rs, ∃ r, m = Middleware.route r) (msg : String) :
    dispatch fs method path (rs ++ [Middleware.errorWare]) ≠ Response.expressDefaultError msg := by
  induction rs with
  | nil => simp [dispatch]
  | cons x xs ih =>
    obtain ⟨r, rfl⟩ := h x (List.mem_cons_self x xs)
    have ihx := ih (fun m hm => h m (List.mem_cons_of_mem _ hm))
    simp only [List.cons_append, dispatch]
    split
    · cases hr : runHandler fs r.handler with
      | ok resp =>
        obtain ⟨b, rfl⟩ := runHandler_ok_shape fs r.handler resp hr
        simp
      | error e =>
        have hde := dispatchErr_routes e xs (fun m hm => h m (List.mem_cons_of_mem _ hm))
        simp only [List.append_eq] at hde ⊢
        rw [hde]
        simp [ExceptionMiddleware.errorMiddleware]
    · exact ihx

/-- On the full application chain, dispatch never falls through to the
express default error handler. -/
theorem dispatch_chain_no_default (fs : FS) (method : String) (path : List String)
    (mount folder : List String) (opts : StaticOptions) (rs : List Middleware)
    (h : ∀ m ∈ rs, ∃ r, m = Middleware.route r) (msg : String) :
    dispatch fs method path
        (Middleware.staticServe mount folder opts :: (rs ++ [Middleware.errorWare]))
      ≠ Response.expressDefaultError msg := by
  simp only [dispatch]
  split
  · cases hs : staticHit fs folder opts (path.drop mount.length) with
    | some c => simp
    | none => exact dispatch_routes_no_default fs method path rs h msg
  · exact dispatch_routes_no_default fs method path rs h msg

/-- Draining the in-flight connections of a closed listener fires the
close callback, which exits the process with code 0. -/
theorem finishConnection_drain (n : Nat) (c : Option Nat) :
    (finishConnection^[n + 1]
        { accepting := false, inflight := n + 1, exitCode := c }).exitCode = some 0 := by
  induction n with
  | zero => simp [finishConnection, closeCallback]
  | succ k ih =>
    rw [Function.iterate_succ_apply]
    have hstep : finishConnection { accepting := false, inflight := k + 2, exitCode := c }
        = { accepting := false, inflight := k + 1, exitCode := c } := by
      simp [finishConnection]
    rw [hstep]
    exact ih

/-- C5: for every list of controllers, App construction composes, in this
fixed order, the database configuration (a no-op), the static middleware
rooted at the configured directory, the provided controllers, and the
catch-all error middleware. -/
theorem c5_app_composition_order (cfg : Config) (controllers : List Controller) :
    App.construct cfg controllers =
      [Middleware.staticServe cfg.MAIN_FILE_URL (cfg.WEBROOT ++ cfg.STATIC_FILES)
          expressStaticDefaults]
        ++ routesFlat controllers ++ [Middleware.errorWare]
    ∧ (∀ app : List Middleware, App.initializeDatabase app = app) := by
  refine ⟨?_, fun app => rfl⟩
  rw [App_construct_eq]
  simp

/-- C6: after App construction, for every list of controllers, the error
middleware occupies the last position of the chain and nothing else in the
chain is the error middleware. -/
theorem c6_error_middleware_last (cfg : Config) (controllers : List Controller) :
    ∃ front, App.construct cfg controllers = front ++ [Middleware.errorWare]
      ∧ Middleware.errorWare ∉ front := by
  refine ⟨Middleware.staticServe cfg.MAIN_FILE_URL (cfg.WEBROOT ++ cfg.STATIC_FILES)
      expressStaticDefaults :: routesFlat controllers, ?_, ?_⟩
  · rw [App_construct_eq]; simp
  · intro hmem
    rcases List.mem_cons.mp hmem with h | h
    · cases h
    · obtain ⟨r, hr⟩ := routesFlat_all_routes controllers _ h
      cases hr

/-- C9: the HttpException constructor discards its status argument: the
constructed error carries the message but no status property, so every
subclass value is independent of the 404 it passes, and no subclass error
carries a status. -/
theorem c9_http_exception_discards_status (s t : Nat) (m email id : String) :
    (HttpException s m).message = m
    ∧ (HttpException s m).status = none
    ∧ HttpException s m = HttpException t m
    ∧ UserWithThatEmailAlreadyExistsException email
        = HttpException t ("user with email " ++ email ++ " not found")
    ∧ WrongCredentialsException = HttpException t "Wrong Password provided"
    ∧ PostNotFoundException id = HttpException t ("Post with id " ++ id ++ " not found")
    ∧ AuthenticationTokenMissingException = HttpException t "Authentication Token Missing"
    ∧ WrongAuthenticationTokenException = HttpException t "Authentication Token Missing"
    ∧ (UserWithThatEmailAlreadyExistsException email).status = none
    ∧ (PostNotFoundException id).status = none
    ∧ WrongCredentialsException.status = none
    ∧ AuthenticationTokenMissingException.status = none
    ∧ WrongAuthenticationTokenException.status = none :=
  ⟨rfl, rfl, rfl, rfl, rfl, rfl, rfl, rfl, rfl, rfl, rfl, rfl, rfl⟩

/-- C7 counterexample: the invalid-token and missing-token exception
classes construct identical error objects (same message, no status), so
the error middleware maps them to the identical HTTP response; the
taxonomy does not give each class its own HTTP error condition. -/
theorem c7_counterexample :
    WrongAuthenticationTokenException = AuthenticationTokenMissingException
    ∧ ExceptionMiddleware.errorMiddleware WrongAuthenticationTokenException
        = ExceptionMiddleware.errorMiddleware AuthenticationTokenMissingException :=
  ⟨rfl, rfl⟩

/-- C7 amended: the exception classes construct errors distinguished only
by message (every status argument is discarded, so every condition maps to
the default 500 status): bad-credentials and not-found conditions receive
distinct responses, but the missing-token and invalid-token classes
construct identical errors and receive the identical response. -/
theorem c7_amended_taxonomy (id : String) :
    ExceptionMiddleware.errorMiddleware WrongCredentialsException
        ≠ ExceptionMiddleware.errorMiddleware AuthenticationTokenMissingException
    ∧ ExceptionMiddleware.errorMiddleware (PostNotFoundException id)
        ≠ ExceptionMiddleware.errorMiddleware WrongCredentialsException
    ∧ ExceptionMiddleware.errorMiddleware (PostNotFoundException id)
        ≠ ExceptionMiddleware.errorMiddleware AuthenticationTokenMissingException
    ∧ ExceptionMiddleware.errorMiddleware WrongAuthenticationTokenException
        = ExceptionMiddleware.errorMiddleware AuthenticationTokenMissingException
    ∧ ExceptionMiddleware.errorMiddleware WrongCredentialsException
        = Response.handledError 500 "Wrong Password provided"
    ∧ ExceptionMiddleware.errorMiddleware AuthenticationTokenMissingException
        = Response.handledError 500 "Authentication Token Missing" := by
  have hpost : ∀ t : String, t.data.head? ≠ some 'P' →
      ("Post with id " ++ (id ++ " not found")) ≠ t := by
    intro t ht h
    apply ht
    rw [← h, String.data_append]
    rfl
  refine ⟨by decide, ?_, ?_, rfl, rfl, rfl⟩
  · intro h
    have hm : ("Post with id " ++ (id ++ " not found")) = "Wrong Password provided" := by
      simpa [ExceptionMiddleware.errorMiddleware, PostNotFoundException, HttpException,
        WrongCredentialsException, Response.handledError.injEq] using h
    exact hpost "Wrong Password provided" (by decide) hm
  · intro h
    have hm : ("Post with id " ++ (id ++ " not found")) = "Authentication Token Missing" := by
      simpa [ExceptionMiddleware.errorMiddleware, PostNotFoundException, HttpException,
        AuthenticationTokenMissingException, Response.handledError.injEq] using h
    exact hpost "Authentication Token Missing" (by decide) hm

/-- C2: on SIGINT the registered handler closes the listener, so no new
connection is accepted; the in-flight connections may finish, and once the
last one has, the close callback exits the process with code 0. -/
theorem c2_sigint_graceful_shutdown (n : Nat) :
    (sigintHandler (initialServer n)).accepting = false
    ∧ acceptConnection (sigintHandler (initialServer n)) = sigintHandler (initialServer n)
    ∧ (finishConnection^[n] (sigintHandler (initialServer n))).exitCode = some 0 := by
  have haccept : (sigintHandler (initialServer n)).accepting = false := by
    cases n with
    | zero => simp [sigintHandler, serverClose, closeCallback, initialServer]
    | succ k => simp [sigintHandler, serverClose, closeCallback, initialServer]
  refine ⟨haccept, ?_, ?_⟩
  · simp [acceptConnection, haccept]
  · cases n with
    | zero => simp [sigintHandler, serverClose, closeCallback, initialServer]
    | succ k =>
      have hs : sigintHandler (initialServer (k + 1))
          = { accepting := false, inflight := k + 1, exitCode := none } := by
        simp [sigintHandler, serverClose, initialServer]
      rw [hs]
      exact finishConnection_drain k none

/-- A configuration-load error, as nconf raises on a malformed
config/default.json. -/
def configLoadError : ErrObj :=
  { message := "Error parsing your configuration file", status := none }

/-- C8 counterexample: an error thrown while loading the configuration is
part of bootstrap, yet it escapes unhandled: nconf.file runs at module
scope, before init and outside the try/catch inside init, so module
evaluation crashes instead of logging. -/
theorem c8_counterexample :
    moduleBoot { configLoad := Except.error configLoadError
               , appConstruct := Except.ok ()
               , listenStart := Except.ok () } = BootOutcome.crashed configLoadError
    ∧ BootOutcome.crashed configLoadError ≠ BootOutcome.loggedError configLoadError :=
  ⟨rfl, fun h => BootOutcome.noConfusion h⟩

/-- C8 amended: errors thrown during App construction or while starting
the listener are caught by the try/catch inside init, logged, and
swallowed, and init returns normally; configuration load, however, runs at
module scope outside that try/catch, so only when it succeeds does the
process reach the protected region (and a successful bootstrap registers
the SIGINT handler). -/
theorem c8_amended_bootstrap_errors (env : BootEnv)
    (hconf : env.configLoad = Except.ok ()) :
    (∀ e, env.appConstruct = Except.error e → moduleBoot env = BootOutcome.loggedError e)
    ∧ (∀ e, env.appConstruct = Except.ok () → env.listenStart = Except.error e →
        moduleBoot env = BootOutcome.loggedError e)
    ∧ (env.appConstruct = Except.ok () → env.listenStart = Except.ok () →
        moduleBoot env = BootOutcome.ok sigintHandler) := by
  refine ⟨?_, ?_, ?_⟩
  · intro e h1
    simp [moduleBoot, initTry, hconf, h1]
  · intro e h1 h2
    simp [moduleBoot, initTry, hconf, h1, h2]
  · intro h1 h2
    simp [moduleBoot, initTry, hconf, h1, h2]

/-- Witness for the amended C8 at a concrete environment: an App
construction failure is logged and swallowed. -/
theorem c8_amended_bootstrap_errors_witness :
    moduleBoot { configLoad := Except.ok ()
               , appConstruct := Except.error { message := "listen EADDRINUSE", status := none }
               , listenStart := Except.ok () }
      = BootOutcome.loggedError { message := "listen EADDRINUSE", status := none } :=
  (c8_amended_bootstrap_errors _ rfl).1 _ rfl

/-- C10: the options object built in initializeMiddlewares is never passed
to express.static: the result of initializeMiddlewares does not depend on
any field of the built object (replacing it by any other object changes
nothing), the mounted static layer carries the serve-static defaults, and
those defaults differ from the built object. -/
theorem c10_static_options_unused (o o' : StaticOptions) (cfg : Config)
    (app : List Middleware) :
    App.initializeMiddlewaresWith o cfg app = App.initializeMiddlewaresWith o' cfg app
    ∧ App.initializeMiddlewares cfg app = App.initializeMiddlewaresWith middlewareOptions cfg app
    ∧ App.initializeMiddlewares cfg app
        = app ++ [Middleware.staticServe cfg.MAIN_FILE_URL (cfg.WEBROOT ++ cfg.STATIC_FILES)
            expressStaticDefaults]
    ∧ expressStaticDefaults ≠ middlewareOptions :=
  ⟨rfl, rfl, rfl, by decide⟩

theorem routesFlat_main (dirname : List String) (cfg : Config) :
    routesFlat [MainController dirname cfg]
      = [Middleware.route
          { method := "GET", path := cfg.MAIN_FILE_URL
          , handler := Handler.sendFile (dirname ++ cfg.MAIN_FILE_PATH ++ [cfg.MAIN_FILE_NAME]) }] := by
  simp [routesFlat, MainController]

theorem dispatch_static_cons (fs : FS) (method : String) (path : List String)
    (mount folder : List String) (opts : StaticOptions) (rest : List Middleware) :
    dispatch fs method path (Middleware.staticServe mount folder opts :: rest)
      = if (method = "GET" ∨ method = "HEAD") ∧ mount.isPrefixOf path then
          match staticHit fs folder opts (path.drop mount.length) with
          | some c => Response.ok c
          | none => dispatch fs method path rest
        else dispatch fs method path rest := rfl

theorem dispatch_route_cons (fs : FS) (method : String) (path : List String)
    (r : Route) (rest : List Middleware) :
    dispatch fs method path (Middleware.route r :: rest)
      = if method = r.method ∧ path = r.path then
          match runHandler fs r.handler with
          | Except.ok resp => resp
          | Except.error e => dispatchErr e rest
        else dispatch fs method path rest := rfl

theorem dispatch_static_miss (fs : FS) (method : String) (path : List String)
    (mount folder : List String) (opts : StaticOptions) (rest : List Middleware)
    (hhit : staticHit fs folder opts (path.drop mount.length) = none) :
    dispatch fs method path (Middleware.staticServe mount folder opts :: rest)
      = dispatch fs method path rest := by
  rw [dispatch_static_cons]
  split
  · rw [hhit]
  · rfl

theorem dispatch_static_hit (fs : FS) (method : String) (path : List String)
    (mount folder : List String) (opts : StaticOptions) (rest : List Middleware) (c : String)
    (hm : method = "GET" ∨ method = "HEAD") (hpre : mount.isPrefixOf path = true)
    (hhit : staticHit fs folder opts (path.drop mount.length) = some c) :
    dispatch fs method path (Middleware.staticServe mount folder opts :: rest)
      = Response.ok c := by
  rw [dispatch_static_cons, if_pos ⟨hm, hpre⟩, hhit]

theorem dispatch_route_miss (fs : FS) (method : String) (path : List String)
    (r : Route) (rest : List Middleware) (h : ¬(method = r.method ∧ path = r.path)) :
    dispatch fs method path (Middleware.route r :: rest) = dispatch fs method path rest := by
  rw [dispatch_route_cons, if_neg h]

theorem dispatch_route_hit (fs : FS) (method : String) (path : List String)
    (r : Route) (rest : List Middleware) (resp : Response)
    (hm : method = r.method ∧ path = r.path) (hr : runHandler fs r.handler = Except.ok resp) :
    dispatch fs method path (Middleware.route r :: rest) = resp := by
  rw [dispatch_route_cons, if_pos hm, hr]

theorem dispatch_route_throw (fs : FS) (method : String) (path : List String)
    (r : Route) (rest : List Middleware) (e : ErrObj)
    (hm : method = r.method ∧ path = r.path) (hr : runHandler fs r.handler = Except.error e) :
    dispatch fs method path (Middleware.route r :: rest) = dispatchErr e rest := by
  rw [dispatch_route_cons, if_pos hm, hr]

/-- C1: a GET request to MAIN_FILE_URL is answered 200 with the content of
the file MAIN_FILE_NAME under MAIN_FILE_PATH (resolved against the
controller module directory), provided the file exists and the static
layer mounted at the same URL does not itself hold a file at its root. -/
theorem c1_main_route_returns_main_file
    (dirname : List String) (cfg : Config) (fs : FS) (content : String)
    (hdir : staticHit fs (cfg.WEBROOT ++ cfg.STATIC_FILES) expressStaticDefaults [] = none)
    (hfile : lookupFile fs (dirname ++ cfg.MAIN_FILE_PATH ++ [cfg.MAIN_FILE_NAME]) = some content) :
    dispatch fs "GET" cfg.MAIN_FILE_URL (App.construct cfg [MainController dirname cfg])
      = Response.ok content := by
  rw [App_construct_eq, routesFlat_main]
  simp only [List.cons_append, List.nil_append]
  rw [dispatch_static_miss _ _ _ _ _ _ _ (by rw [List.drop_length]; exact hdir)]
  exact dispatch_route_hit _ _ _ _ _ _ ⟨rfl, rfl⟩ (by simp only [runHandler, hfile])

/-- Witness data: a concrete configuration with MAIN_FILE_URL the root
path, and a file system holding the main page and one static asset. -/
def cfg0 : Config :=
  { WEBROOT := ["webroot"]
  , STATIC_FILES := ["static"]
  , PORT := 3005
  , MAIN_FILE_URL := []
  , MAIN_FILE_PATH := ["public"]
  , MAIN_FILE_NAME := "index.html" }

def dir0 : List String := ["settings", "controllers"]

def fs0 : FS :=
  [ (["settings", "controllers", "public", "index.html"], "MAIN")
  , (["webroot", "static", "app.js"], "APPJS") ]

/-- Witness for C1 at the concrete configuration. -/
theorem c1_main_route_returns_main_file_witness :
    dispatch fs0 "GET" cfg0.MAIN_FILE_URL (App.construct cfg0 [MainController dir0 cfg0])
      = Response.ok "MAIN" :=
  c1_main_route_returns_main_file dir0 cfg0 fs0 "MAIN" (by decide) (by decide)

/-- C3: a GET request for a path strictly below the static mount point is
answered with the content of the corresponding file under
WEBROOT/STATIC_FILES when it exists, and with the framework 404 when
neither it nor a directory index below it exists. -/
theorem c3_static_directory_requests
    (dirname : List String) (cfg : Config) (fs : FS) (seg : String) (rest : List String) :
    (∀ c, lookupFile fs (cfg.WEBROOT ++ cfg.STATIC_FILES ++ (seg :: rest)) = some c →
        dispatch fs "GET" (cfg.MAIN_FILE_URL ++ seg :: rest)
          (App.construct cfg [MainController dirname cfg]) = Response.ok c)
    ∧ (staticHit fs (cfg.WEBROOT ++ cfg.STATIC_FILES) expressStaticDefaults (seg :: rest) = none →
        dispatch fs "GET" (cfg.MAIN_FILE_URL ++ seg :: rest)
          (App.construct cfg [MainController dirname cfg]) = Response.notFound) := by
  have hpre : cfg.MAIN_FILE_URL.isPrefixOf (cfg.MAIN_FILE_URL ++ seg :: rest) = true := by
    simp [List.isPrefixOf_iff_prefix]
  constructor
  · intro c hc
    rw [App_construct_eq, routesFlat_main]
    simp only [List.cons_append, List.nil_append]
    refine dispatch_static_hit _ _ _ _ _ _ _ c (Or.inl rfl) hpre ?_
    rw [List.drop_left]
    simp only [staticHit, hc]
  · intro hnone
    rw [App_construct_eq, routesFlat_main]
    simp only [List.cons_append, List.nil_append]
    rw [dispatch_static_miss _ _ _ _ _ _ _ (by rw [List.drop_left]; exact hnone)]
    rw [dispatch_route_miss _ _ _ _ _ (by simp)]
    rfl

/-- Witness for C3 at the concrete configuration: the present asset is
served, the absent one gets a 404. -/
theorem c3_static_directory_requests_witness :
    dispatch fs0 "GET" ["app.js"] (App.construct cfg0 [MainController dir0 cfg0])
      = Response.ok "APPJS"
    ∧ dispatch fs0 "GET" ["missing.js"] (App.construct cfg0 [MainController dir0 cfg0])
      = Response.notFound :=
  ⟨(c3_static_directory_requests dir0 cfg0 fs0 "app.js" []).1 "APPJS" (by decide)
  , (c3_static_directory_requests dir0 cfg0 fs0 "missing.js" []).2 (by decide)⟩

/-- C4: an exception thrown uncaught inside a matching route handler is
answered by the application error middleware (the chain always ends there),
and on the App chain no request ever reaches the express fallback error
handler: the response is a handled HTTP error, never a crash. -/
theorem c4_uncaught_route_exceptions_handled
    (cfg : Config) (controllers : List Controller) (fs : FS)
    (method : String) (path : List String) (e : ErrObj)
    (hstat : staticHit fs (cfg.WEBROOT ++ cfg.STATIC_FILES) expressStaticDefaults
        (path.drop cfg.MAIN_FILE_URL.length) = none) :
    dispatch fs method path
        (App.construct cfg
          ({ routes := [{ method := method, path := path, handler := Handler.throwErr e }] }
            :: controllers))
      = ExceptionMiddleware.errorMiddleware e
    ∧ ∀ (controllers2 : List Controller) (msg : String),
        dispatch fs method path (App.construct cfg controllers2)
          ≠ Response.expressDefaultError msg := by
  constructor
  · have hchain : App.construct cfg
        ({ routes := [{ method := method, path := path, handler := Handler.throwErr e }] }
          :: controllers)
        = Middleware.staticServe cfg.MAIN_FILE_URL (cfg.WEBROOT ++ cfg.STATIC_FILES)
            expressStaticDefaults
          :: Middleware.route { method := method, path := path, handler := Handler.throwErr e }
          :: (routesFlat controllers ++ [Middleware.errorWare]) := by
      rw [App_construct_eq, routesFlat_cons]
      simp
    rw [hchain]
    rw [dispatch_static_miss _ _ _ _ _ _ _ hstat]
    rw [dispatch_route_throw fs method path
      { method := method, path := path, handler := Handler.throwErr e }
      (routesFlat controllers ++ [Middleware.errorWare]) e ⟨rfl, rfl⟩ rfl]
    exact dispatchErr_routes e (routesFlat controllers) (routesFlat_all_routes controllers)
  · intro controllers2 msg
    rw [App_construct_eq]
    exact dispatch_chain_no_default fs method path _ _ _ _
      (routesFlat_all_routes controllers2) msg

/-- Witness for C4 at a concrete throwing route. -/
theorem c4_uncaught_route_exceptions_handled_witness :
    dispatch fs0 "POST" ["boom"]
        (App.construct cfg0
          [{ routes := [{ method := "POST", path := ["boom"]
                        , handler := Handler.throwErr { message := "kaboom", status := none } }] }])
      = Response.handledError 500 "kaboom" := by
  have h := c4_uncaught_route_exceptions_handled cfg0 [] fs0 "POST" ["boom"]
    { message := "kaboom", status := none } (by decide)
  exact h.1

end HomeyPrayersWeb
